import Mathlib

/-!
Verification of the GitHub→Telegram webhook relay (`app.py`) against its
natural-language specification.

The development shallowly embeds the program: JSON values are an inductive
type, Python `bytes` are `List Nat` (each element a byte value), Python `str`
is Lean `String`, fallible Python expressions (attribute errors, type errors)
are `Except PyErr`, and the two external effects — the Telegram HTTP endpoint
and the process environment — are explicit parameters (`net` oracle and a
`Config` record).  Machine-level faithfulness notes:

* `hashlib.sha256` / `hmac.new(·,·,sha256)` are implemented in full
  (FIPS 180-4 SHA-256 over byte lists, RFC 2104 HMAC), with 32-bit words
  represented as `Nat` reduced `% 2^32`.
* `hmac.compare_digest` on `str` arguments requires both to be ASCII and
  raises `TypeError` otherwise (and when one argument is `None`); this is
  modelled by `pyCompareDigest`.
* Flask's `request.get_json()` is modelled by `pyParseJson` (UTF-8 decode
  followed by a strict JSON parse).  JSON numbers are modelled as integers
  only; float literals are treated as unparseable, and lone-surrogate
  `\uXXXX` escapes are rejected.  Requests are assumed to carry an
  `application/json` content type.  A parse failure raises inside the
  handler's `try:` block and is therefore converted to a 500 response by the
  blanket `except Exception` clause, exactly as in the source.
* Python truthiness (`if not data`, `if not commits`, `if not signature`,
  `if not all([...])`) is modelled by `pyTruthy` / `truthyOptS`.
-/

/-- Python exception classes that the embedded code can raise. -/
inductive PyErr where
  | attributeError
  | typeError
deriving DecidableEq, Repr

/-- JSON values as produced by `json.loads` (numbers restricted to integers). -/
inductive JValue where
  | null
  | bool (b : Bool)
  | num (n : Int)
  | str (s : String)
  | arr (l : List JValue)
  | obj (l : List (String × JValue))

/-- Dictionary lookup, first match wins (parsed objects contain no duplicate
keys because `objInsert` replaces in place, mirroring Python dict insertion). -/
def dlookup : List (String × JValue) → String → Option JValue
  | [], _ => none
  | (k', v) :: rest, k => if k' = k then some v else dlookup rest k

/-- Python truthiness of a JSON value (`bool(x)`). -/
def pyTruthy : JValue → Bool
  | .null => false
  | .bool b => b
  | .num n => n != 0
  | .str s => s != ""
  | .arr l => !l.isEmpty
  | .obj l => !l.isEmpty

/-- Python truthiness of an optional string (`None` and `""` are falsy). -/
def truthyOptS : Option String → Bool
  | none => false
  | some s => s != ""

/-- Python `d.get(k, default)`: raises `AttributeError` when the receiver is
not a dict. -/
def pyGetD : JValue → String → JValue → Except PyErr JValue
  | .obj kvs, k, dflt => .ok ((dlookup kvs k).getD dflt)
  | _, _, _ => .error .attributeError

/-- Python `d.get(k)` (implicit `None` default). -/
def pyGet1 (v : JValue) (k : String) : Except PyErr JValue :=
  pyGetD v k .null

/-- Python iteration `for x in v`: lists yield elements, strings yield their
characters (as one-character strings), dicts yield their keys; other values
raise `TypeError`. -/
def pyIter : JValue → Option (List JValue)
  | .arr l => some l
  | .str s => some (s.data.map (fun c => .str (String.singleton c)))
  | .obj kvs => some (kvs.map (fun p => .str p.1))
  | _ => none

/-- Membership of a key in a JSON object. -/
def hasKey (v : JValue) (k : String) : Bool :=
  match v with
  | .obj kvs => kvs.any (fun p => p.1 == k)
  | _ => false

/-- Test for a JSON object (Python dict). -/
def JValue.isObj : JValue → Bool
  | .obj _ => true
  | _ => false

/-! ## SHA-256 (FIPS 180-4) and HMAC (RFC 2104), as used by
`hmac.new(secret, payload_body, hashlib.sha256)` -/

/-- Word modulus 2^32. -/
def w32 : Nat := 4294967296

/-- Right rotation of a 32-bit word. -/
def rotr32 (n x : Nat) : Nat :=
  ((x % w32) >>> n) ||| (((x % w32) <<< (32 - n)) % w32)

/-- SHA-256 choice function. -/
def ch32 (x y z : Nat) : Nat := (x &&& y) ^^^ ((4294967295 ^^^ (x % w32)) &&& z)

/-- SHA-256 majority function. -/
def maj32 (x y z : Nat) : Nat := (x &&& y) ^^^ (x &&& z) ^^^ (y &&& z)

/-- SHA-256 big sigma 0. -/
def bS0 (x : Nat) : Nat := rotr32 2 x ^^^ rotr32 13 x ^^^ rotr32 22 x

/-- SHA-256 big sigma 1. -/
def bS1 (x : Nat) : Nat := rotr32 6 x ^^^ rotr32 11 x ^^^ rotr32 25 x

/-- SHA-256 small sigma 0. -/
def sS0 (x : Nat) : Nat := rotr32 7 x ^^^ rotr32 18 x ^^^ ((x % w32) >>> 3)

/-- SHA-256 small sigma 1. -/
def sS1 (x : Nat) : Nat := rotr32 17 x ^^^ rotr32 19 x ^^^ ((x % w32) >>> 10)

/-- SHA-256 round constants. -/
def K256 : List Nat :=
  [1116352408, 1899447441, 3049323471, 3921009573, 961987163,
   1508970993, 2453635748, 2870763221, 3624381080, 310598401,
   607225278, 1426881987, 1925078388, 2162078206, 2614888103,
   3248222580, 3835390401, 4022224774, 264347078, 604807628,
   770255983, 1249150122, 1555081692, 1996064986, 2554220882,
   2821834349, 2952996808, 3210313671, 3336571891, 3584528711,
   113926993, 338241895, 666307205, 773529912, 1294757372,
   1396182291, 1695183700, 1986661051, 2177026350, 2456956037,
   2730485921, 2820302411, 3259730800, 3345764771, 3516065817,
   3600352804, 4094571909, 275423344, 430227734, 506948616,
   659060556, 883997877, 958139571, 1322822218, 1537002063,
   1747873779, 1955562222, 2024104815, 2227730452, 2361852424,
   2428436474, 2756734187, 3204031479, 3329325298]

/-- SHA-256 initial hash state. -/
def H256 : List Nat :=
  [1779033703, 3144134277, 1013904242, 2773480762, 1359893119,
   2600822924, 528734635, 1541459225]

/-- One word of the extended message schedule, computed from the last 16
entries of the schedule built so far. -/
def schedWord (ws : List Nat) : Nat :=
  (sS1 (ws.getD (ws.length - 2) 0) + ws.getD (ws.length - 7) 0 +
     sS0 (ws.getD (ws.length - 15) 0) + ws.getD (ws.length - 16) 0) % w32

/-- Extend a 16-word block to the 64-word message schedule. -/
def schedule (block : List Nat) : List Nat :=
  (List.range 48).foldl (fun ws _ => ws ++ [schedWord ws]) block

/-- One SHA-256 round on the 8-word working state. -/
def round256 (st : List Nat) (k w : Nat) : List Nat :=
  let a := st.getD 0 0
  let b := st.getD 1 0
  let c := st.getD 2 0
  let d := st.getD 3 0
  let e := st.getD 4 0
  let f := st.getD 5 0
  let g := st.getD 6 0
  let h := st.getD 7 0
  let t1 := (h + bS1 e + ch32 e f g + k + w) % w32
  let t2 := (bS0 a + maj32 a b c) % w32
  [(t1 + t2) % w32, a, b, c, (d + t1) % w32, e, f, g]

/-- SHA-256 compression of one 16-word block into the hash state. -/
def compressBlock (h : List Nat) (block : List Nat) : List Nat :=
  let ws := schedule block
  let st := (K256.zip ws).foldl (fun st p => round256 st p.1 p.2) h
  (h.zip st).map (fun p => (p.1 + p.2) % w32)

/-- Group a byte list into big-endian 32-bit words. -/
def bytesToWords : List Nat → List Nat
  | b0 :: b1 :: b2 :: b3 :: rest =>
      ((b0 % 256) * 16777216 + (b1 % 256) * 65536 + (b2 % 256) * 256 + b3 % 256)
        :: bytesToWords rest
  | _ => []

/-- Group a word list into 16-word blocks. -/
def blocks16 : List Nat → List (List Nat)
  | w0 :: w1 :: w2 :: w3 :: w4 :: w5 :: w6 :: w7 ::
    w8 :: w9 :: w10 :: w11 :: w12 :: w13 :: w14 :: w15 :: rest =>
      [w0, w1, w2, w3, w4, w5, w6, w7, w8, w9, w10, w11, w12, w13, w14, w15]
        :: blocks16 rest
  | _ => []

/-- SHA-256 padding: append `0x80`, zeros, and the 64-bit big-endian bit
length, reaching a multiple of 64 bytes. -/
def shaPad (msg : List Nat) : List Nat :=
  msg ++ [128] ++ List.replicate ((119 - msg.length % 64) % 64) 0 ++
    (List.range 8).map (fun i => ((msg.length * 8) >>> ((7 - i) * 8)) % 256)

/-- Serialize a 32-bit word as 4 big-endian bytes. -/
def wordBytes (w : Nat) : List Nat :=
  [(w >>> 24) % 256, (w >>> 16) % 256, (w >>> 8) % 256, w % 256]

/-- SHA-256 digest (32 bytes) of a byte list. -/
def sha256 (msg : List Nat) : List Nat :=
  ((blocks16 (bytesToWords (shaPad msg))).foldl compressBlock H256).flatMap wordBytes

/-- HMAC-SHA256 (RFC 2104): digest bytes of `hmac.new(key, msg, sha256)`. -/
def hmacSha256 (key msg : List Nat) : List Nat :=
  let k0 := if 64 < key.length then sha256 key else key
  let kp := k0 ++ List.replicate (64 - k0.length) 0
  sha256 ((kp.map fun b => b ^^^ 92) ++ sha256 ((kp.map fun b => b ^^^ 54) ++ msg))

/-- Lower-case hex character for a nibble. -/
def hexChar (n : Nat) : Char :=
  if n < 10 then Char.ofNat (48 + n) else Char.ofNat (87 + n)

/-- Lower-case hex string of a byte list (`.hexdigest()`). -/
def digestHex (bytes : List Nat) : String :=
  String.mk (bytes.flatMap fun b => [hexChar ((b / 16) % 16), hexChar (b % 16)])

/-- UTF-8 encoding of one character (Python `str.encode()`). -/
def utf8EncodeC (c : Char) : List Nat :=
  let n := c.toNat
  if n < 128 then [n]
  else if n < 2048 then [192 + n / 64, 128 + n % 64]
  else if n < 65536 then [224 + n / 4096, 128 + (n / 64) % 64, 128 + n % 64]
  else [240 + n / 262144, 128 + (n / 4096) % 64, 128 + (n / 64) % 64, 128 + n % 64]

/-- Python `str.encode()`: UTF-8 bytes of a string. -/
def pyEncode (s : String) : List Nat :=
  s.data.flatMap utf8EncodeC

/-- ASCII-only test used by `hmac.compare_digest` on `str` arguments. -/
def asciiOnly (s : String) : Bool :=
  s.data.all (fun c => c.toNat < 128)

/-- Python `hmac.compare_digest(a, b)` where `b` may be `None` (an absent
header).  On `str` arguments Python requires both to be ASCII-only and raises
`TypeError` otherwise; a `None` argument likewise raises `TypeError`.  The
comparison itself is constant-time string equality. -/
def pyCompareDigest (a : String) (b : Option String) : Except PyErr Bool :=
  match b with
  | none => .error .typeError
  | some s => if asciiOnly a && asciiOnly s then .ok (a == s) else .error .typeError

/-- The signature header GitHub would produce for `body` under `secret`:
`'sha256=' + hmac.new(secret.encode(), body, sha256).hexdigest()`. -/
def signHeader (secret : String) (body : List Nat) : String :=
  "sha256=" ++ digestHex (hmacSha256 (pyEncode secret) body)

/-- Model of `verify_github_signature(payload_body, signature_header)` with the
module-level `GITHUB_WEBHOOK_SECRET` passed explicitly.  A missing (or empty,
hence falsy) secret returns `False`; otherwise the expected header is computed
and compared with `hmac.compare_digest`. -/
def verifyGithubSignature (secret : Option String) (payloadBody : List Nat)
    (signatureHeader : Option String) : Except PyErr Bool :=
  match secret with
  | none => .ok false
  | some sec =>
    if sec = "" then .ok false
    else pyCompareDigest (signHeader sec payloadBody) signatureHeader

/-! ## Python string conversion (f-string interpolation uses `str(x)`) -/

/-- Single-quote character as a string (used by Python `repr` of strings). -/
def aposS : String := String.singleton (Char.ofNat 39)

mutual

/-- Python `str(x)` for a JSON value (top-level f-string interpolation).
Strings inside containers are rendered with `repr`-style single quotes;
escaping inside `repr` of exotic strings is not modelled. -/
def pyStr : JValue → String
  | .null => "None"
  | .bool true => "True"
  | .bool false => "False"
  | .num n => toString n
  | .str s => s
  | .arr l => "[" ++ pyReprList l ++ "]"
  | .obj l => "\x7b" ++ pyReprObj l ++ "\x7d"

/-- Python `repr(x)` for a JSON value (approximate for exotic strings). -/
def pyRepr : JValue → String
  | .null => "None"
  | .bool true => "True"
  | .bool false => "False"
  | .num n => toString n
  | .str s => aposS ++ s ++ aposS
  | .arr l => "[" ++ pyReprList l ++ "]"
  | .obj l => "\x7b" ++ pyReprObj l ++ "\x7d"

/-- Comma-separated `repr` of list elements. -/
def pyReprList : List JValue → String
  | [] => ""
  | [v] => pyRepr v
  | v :: vs => pyRepr v ++ ", " ++ pyReprList vs

/-- Comma-separated `repr` of dict items. -/
def pyReprObj : List (String × JValue) → String
  | [] => ""
  | [(k, v)] => aposS ++ k ++ aposS ++ ": " ++ pyRepr v
  | (k, v) :: kvs => aposS ++ k ++ aposS ++ ": " ++ pyRepr v ++ ", " ++ pyReprObj kvs

end

/-! ## JSON parsing (`request.get_json()`) -/

/-- JSON whitespace skip. -/
def skipWs (cs : List Char) : List Char :=
  cs.dropWhile (fun c => c == ' ' || c == '\t' || c == '\n' || c == '\r')

/-- Hex digit value. -/
def hexVal (c : Char) : Option Nat :=
  if '0' ≤ c ∧ c ≤ '9' then some (c.toNat - 48)
  else if 'a' ≤ c ∧ c ≤ 'f' then some (c.toNat - 87)
  else if 'A' ≤ c ∧ c ≤ 'F' then some (c.toNat - 55)
  else none

/-- Content characters of a JSON string literal up to the closing quote.
Control characters are rejected, standard escapes are decoded, and a
`\uXXXX` escape denoting a surrogate is rejected (lone surrogates are not
representable as Lean characters). -/
def parseStrChars : List Char → Option (List Char × List Char)
  | [] => none
  | '"' :: r => some ([], r)
  | '\\' :: e :: r =>
      if e = '"' ∨ e = '\\' ∨ e = '/' then
        (parseStrChars r).map (fun p => (e :: p.1, p.2))
      else if e = 'n' then (parseStrChars r).map (fun p => ('\n' :: p.1, p.2))
      else if e = 't' then (parseStrChars r).map (fun p => ('\t' :: p.1, p.2))
      else if e = 'r' then (parseStrChars r).map (fun p => ('\r' :: p.1, p.2))
      else if e = 'b' then (parseStrChars r).map (fun p => (Char.ofNat 8 :: p.1, p.2))
      else if e = 'f' then (parseStrChars r).map (fun p => (Char.ofNat 12 :: p.1, p.2))
      else if e = 'u' then
        match r with
        | h1 :: h2 :: h3 :: h4 :: r4 =>
          match hexVal h1, hexVal h2, hexVal h3, hexVal h4 with
          | some a, some b, some c, some d =>
            let cp := a * 4096 + b * 256 + c * 16 + d
            if cp < 55296 ∨ 57343 < cp then
              (parseStrChars r4).map (fun p => (Char.ofNat cp :: p.1, p.2))
            else none
          | _, _, _, _ => none
        | _ => none
      else none
  | c :: r =>
      if c.toNat < 32 then none
      else (parseStrChars r).map (fun p => (c :: p.1, p.2))

/-- Numeric value of a decimal digit list. -/
def digitsVal (l : List Char) : Nat :=
  l.foldl (fun n c => n * 10 + (c.toNat - 48)) 0

/-- Parse a JSON integer literal.  Float syntax (fraction or exponent) is not
modelled and is treated as a parse failure; leading zeros are rejected as in
strict JSON. -/
def parseNum (cs : List Char) : Option (Int × List Char) :=
  let neg := match cs with | '-' :: _ => true | _ => false
  let cs1 := match cs with | '-' :: r => r | _ => cs
  let ds := cs1.takeWhile (fun c => c.isDigit)
  let rest := cs1.dropWhile (fun c => c.isDigit)
  if ds.isEmpty then none
  else if 1 < ds.length ∧ ds.headD '0' = '0' then none
  else
    match rest with
    | c :: _ =>
        if c = '.' ∨ c = 'e' ∨ c = 'E' then none
        else some (if neg then -(digitsVal ds : Int) else (digitsVal ds : Int), rest)
    | [] => some (if neg then -(digitsVal ds : Int) else (digitsVal ds : Int), [])

/-- Insert a key into an object, replacing in place on duplicate (Python dict
insertion semantics). -/
def objInsert (kvs : List (String × JValue)) (k : String) (v : JValue) :
    List (String × JValue) :=
  if kvs.any (fun p => p.1 == k) then
    kvs.map (fun p => if p.1 == k then (k, v) else p)
  else kvs ++ [(k, v)]

mutual

/-- Parse one JSON value (fuel-indexed recursive descent). -/
def parseV : Nat → List Char → Option (JValue × List Char)
  | 0, _ => none
  | fuel + 1, cs =>
    match skipWs cs with
    | [] => none
    | 'n' :: 'u' :: 'l' :: 'l' :: r => some (.null, r)
    | 't' :: 'r' :: 'u' :: 'e' :: r => some (.bool true, r)
    | 'f' :: 'a' :: 'l' :: 's' :: 'e' :: r => some (.bool false, r)
    | '"' :: r => (parseStrChars r).map (fun p => (.str (String.mk p.1), p.2))
    | '[' :: r =>
        match skipWs r with
        | ']' :: r2 => some (.arr [], r2)
        | _ => (parseElems fuel (skipWs r)).map (fun p => (.arr p.1, p.2))
    | '\x7b' :: r =>
        match skipWs r with
        | '\x7d' :: r2 => some (.obj [], r2)
        | _ =>
            (parseMembers fuel (skipWs r)).map
              (fun p => (.obj (p.1.foldl (fun acc kv => objInsert acc kv.1 kv.2) []), p.2))
    | c :: r =>
        if c = '-' ∨ c.isDigit then
          (parseNum (c :: r)).map (fun p => (.num p.1, p.2))
        else none

/-- Parse the elements of a non-empty JSON array after the opening bracket. -/
def parseElems : Nat → List Char → Option (List JValue × List Char)
  | 0, _ => none
  | fuel + 1, cs =>
      match parseV fuel cs with
      | none => none
      | some (v, r) =>
        match skipWs r with
        | ',' :: r2 => (parseElems fuel r2).map (fun p => (v :: p.1, p.2))
        | ']' :: r2 => some ([v], r2)
        | _ => none

/-- Parse the members of a non-empty JSON object after the opening brace. -/
def parseMembers : Nat → List Char → Option (List (String × JValue) × List Char)
  | 0, _ => none
  | fuel + 1, cs =>
      match skipWs cs with
      | '"' :: r =>
        match parseStrChars r with
        | none => none
        | some (kcs, r2) =>
          match skipWs r2 with
          | ':' :: r3 =>
            match parseV fuel r3 with
            | none => none
            | some (v, r4) =>
              match skipWs r4 with
              | ',' :: r5 => (parseMembers fuel r5).map (fun p => ((String.mk kcs, v) :: p.1, p.2))
              | '\x7d' :: r5 => some ([(String.mk kcs, v)], r5)
              | _ => none
          | _ => none
      | _ => none

end

/-- UTF-8 decode of a byte list (Python decodes the request body before
`json.loads`; a decode error raises and is handled like a parse failure). -/
def utf8Decode : List Nat → Option (List Char)
  | [] => some []
  | b :: r =>
    if b < 128 then (utf8Decode r).map (Char.ofNat b :: ·)
    else if b < 194 then none
    else if b < 224 then
      match r with
      | b2 :: r2 =>
        if 128 ≤ b2 ∧ b2 < 192 then
          (utf8Decode r2).map (Char.ofNat ((b - 192) * 64 + (b2 - 128)) :: ·)
        else none
      | _ => none
    else if b < 240 then
      match r with
      | b2 :: b3 :: r3 =>
        let cp := (b - 224) * 4096 + (b2 - 128) * 64 + (b3 - 128)
        if 128 ≤ b2 ∧ b2 < 192 ∧ 128 ≤ b3 ∧ b3 < 192 ∧ 2048 ≤ cp ∧
            (cp < 55296 ∨ 57343 < cp) then
          (utf8Decode r3).map (Char.ofNat cp :: ·)
        else none
      | _ => none
    else if b < 245 then
      match r with
      | b2 :: b3 :: b4 :: r4 =>
        let cp := (b - 240) * 262144 + (b2 - 128) * 4096 + (b3 - 128) * 64 + (b4 - 128)
        if 128 ≤ b2 ∧ b2 < 192 ∧ 128 ≤ b3 ∧ b3 < 192 ∧ 128 ≤ b4 ∧ b4 < 192 ∧
            65536 ≤ cp ∧ cp < 1114112 then
          (utf8Decode r4).map (Char.ofNat cp :: ·)
        else none
      | _ => none
    else none

/-- Model of `request.get_json()` on the raw body bytes: UTF-8 decode, strict
JSON parse, and a check that only whitespace remains.  `none` means the call
raises (caught by the handler's blanket `except` clause). -/
def pyParseJson (bytes : List Nat) : Option JValue :=
  match utf8Decode bytes with
  | none => none
  | some cs =>
    match parseV (cs.length + 1) cs with
    | some (v, rest) => if (skipWs rest).isEmpty then some v else none
    | none => none

/-! ## Configuration, delivery client, and webhook handler -/

/-- Environment configuration read at startup (`os.getenv`). -/
structure Config where
  telegramBotToken : Option String
  telegramChatId : Option String
  githubWebhookSecret : Option String

/-- The JSON payload posted to the Telegram `sendMessage` endpoint (the bot
token is part of the request URL and is a fixed function of the
configuration, so it is not repeated here). -/
structure TgPost where
  chatId : String
  text : String
  parseMode : String
  disableWebPagePreview : Bool
deriving DecidableEq, Repr

/-- Outcome of `requests.post(...)` followed by `raise_for_status()`: either
success, or a `requests.exceptions.RequestException` (covering network
failures and non-2xx statuses alike). -/
inductive NetOutcome where
  | success
  | failure (detail : String)
deriving DecidableEq, Repr

/-- Model of `send_telegram_message(text)`.  Returns the boolean result and
the list of network requests actually issued (empty when the credentials are
missing or falsy, since the function returns before any network call).  All
network failures are caught and returned as `False`. -/
def sendTelegramMessage (cfg : Config) (net : TgPost → NetOutcome) (text : String) :
    Bool × List TgPost :=
  if truthyOptS cfg.telegramBotToken && truthyOptS cfg.telegramChatId then
    let post : TgPost := ⟨cfg.telegramChatId.getD "", text, "Markdown", true⟩
    match net post with
    | .success => (true, [post])
    | .failure _ => (false, [post])
  else (false, [])

/-- Python `s.split('/')` on the character list (single-character separator,
keeping empty fields, as Python does). -/
def splitChar (sep : Char) : List Char → List (List Char)
  | [] => [[]]
  | c :: r =>
    if c = sep then [] :: splitChar sep r
    else
      match splitChar sep r with
      | [] => [[c]]
      | g :: gs => (c :: g) :: gs

/-- Python `s.split('/')` as strings. -/
def pySplitSlash (s : String) : List String :=
  (splitChar '/' s.data).map String.mk

/-- The horizontal separator line of the message template. -/
def sepLine : String := "━━━━━━━━━━━━━━━"

/-- The f-string of lines 132–140: formats one commit notification.  Each
interpolated `x` is rendered with `str(x)`; a non-dict `commit` (or a present
but non-dict `author` value, or a non-dict `repo`) raises `AttributeError`.
Evaluation order matches the f-string: repo name, author, message, url. -/
def formatMessage (repo : JValue) (branch : String) (commit : JValue) :
    Except PyErr String := do
  let repoName ← pyGetD repo "name" (.str "Unnamed Repository")
  let author ← pyGetD commit "author" (.obj [])
  let authorName ← pyGetD author "name" (.str "Unknown")
  let msg ← pyGetD commit "message" (.str "No message")
  let url ← pyGetD commit "url" (.str "#")
  pure ("📌 *New Commit to " ++ pyStr repoName ++ "*\n" ++ sepLine ++
    "\n👤 *Author*: " ++ pyStr authorName ++
    "\n🔹 *Branch*: `" ++ branch ++
    "`\n💬 *Message*: _" ++ pyStr msg ++
    "_\n" ++ sepLine ++
    "\n🔗 [View Commit ↗](" ++ pyStr url ++ ")")

/-- Line 122: `branch = data.get('ref', '').split('/')[-1]`.  A present but
non-string `ref` raises `AttributeError` at `.split`. -/
def branchOf (data : JValue) : Except PyErr String := do
  let r ← pyGetD data "ref" (.str "")
  match r with
  | .str s => pure ((pySplitSlash s).getLastD "")
  | _ => .error .attributeError

/-- Line 123: `pusher = data.get('pusher', {}).get('name', 'Unknown')` (the
value is computed and never used afterwards, but its exceptions matter). -/
def pusherOf (data : JValue) : Except PyErr JValue := do
  let p ← pyGetD data "pusher" (.obj [])
  pyGetD p "name" (.str "Unknown")

/-- One iteration of the commit loop (lines 130–149): the inner `try` block
formats and sends, appending a `sent`/`failed`/`error` result.  The `except`
branch itself evaluates `commit.get('id')`, which raises again when `commit`
is not a dict — that exception escapes the loop (modelled as `.error`).
Returns the result entry, the texts passed to `send_telegram_message`, and
the network posts issued. -/
def processCommit (cfg : Config) (net : TgPost → NetOutcome) (repo : JValue)
    (branch : String) (commit : JValue) :
    Except PyErr (JValue × List String × List TgPost) :=
  match formatMessage repo branch commit with
  | .ok msg =>
      let r := sendTelegramMessage cfg net msg
      match pyGet1 commit "id" with
      | .ok cid =>
          .ok (.obj [("commit_id", cid),
                     ("status", .str (if r.1 then "sent" else "failed"))],
               [msg], r.2)
      | .error e => .error e
  | .error _ =>
      match pyGet1 commit "id" with
      | .ok cid => .ok (.obj [("commit_id", cid), ("status", .str "error")], [], [])
      | .error e => .error e

/-- The commit loop: processes commits in payload order, accumulating result
entries, texts passed to the delivery client, and network posts.  An escaping
exception aborts the loop but the effects already performed are kept. -/
def runCommits (cfg : Config) (net : TgPost → NetOutcome) (repo : JValue)
    (branch : String) :
    List JValue → Except PyErr (List JValue) × List String × List TgPost
  | [] => (.ok [], [], [])
  | c :: cs =>
    match processCommit cfg net repo branch c with
    | .error e => (.error e, [], [])
    | .ok (entry, calls, posts) =>
      let rest := runCommits cfg net repo branch cs
      (rest.1.map (entry :: ·), calls ++ rest.2.1, posts ++ rest.2.2)

/-- HTTP response of the handler: status code, JSON body (`none` for `abort`
responses and unhandled exceptions), texts passed to the delivery client, and
network posts issued while producing it. -/
structure WResp where
  code : Nat
  body : Option JValue
  calls : List String
  posts : List TgPost

/-- A 500 response with no effects (abort or unhandled exception). -/
def err500 : WResp := ⟨500, none, [], []⟩

/-- Lines 119–156: the `push` branch of the handler. -/
def pushHandler (cfg : Config) (net : TgPost → NetOutcome) (data : JValue) : WResp :=
  match pyGetD data "repository" (.obj []) with
  | .error _ => err500
  | .ok repo =>
    match pyGetD data "commits" (.arr []) with
    | .error _ => err500
    | .ok commits =>
      match branchOf data with
      | .error _ => err500
      | .ok branch =>
        match pusherOf data with
        | .error _ => err500
        | .ok _ =>
          if pyTruthy commits = false then
            ⟨200, some (.obj [("status", .str "ignored"), ("reason", .str "No commits")]),
              [], []⟩
          else
            match pyIter commits with
            | none => err500
            | some cs =>
              match runCommits cfg net repo branch cs with
              | (.error _, calls, posts) => ⟨500, none, calls, posts⟩
              | (.ok entries, calls, posts) =>
                match pyGet1 repo "name" with
                | .error _ => ⟨500, none, calls, posts⟩
                | .ok rn =>
                  ⟨200, some (.obj [("status", .str "processed"), ("repo", rn),
                     ("branch", .str branch), ("results", .arr entries)]),
                   calls, posts⟩

/-- Lines 104–163: the `try:` block of the handler, given the event type and
the result of `request.get_json()` (`none` when parsing raised).  All
exceptions — including the parse failure itself — fall to the blanket
`except Exception` clause, which responds 500. -/
def processPayload (cfg : Config) (net : TgPost → NetOutcome) (eventType : String)
    (parsed : Option JValue) : WResp :=
  match parsed with
  | none => err500
  | some data =>
    if pyTruthy data = false then
      ⟨200, some (.obj [("status", .str "ignored"), ("reason", .str "Empty payload")]),
        [], []⟩
    else if eventType = "ping" then
      match pyGetD data "zen" (.str "") with
      | .error _ => err500
      | .ok zen => ⟨200, some (.obj [("status", .str "pong"), ("zen", zen)]), [], []⟩
    else if eventType = "push" then pushHandler cfg net data
    else
      ⟨200, some (.obj [("status", .str "ignored"),
        ("reason", .str ("Unhandled event type: " ++ eventType))]), [], []⟩

/-- Line 110: `request.headers.get('X-GitHub-Event', 'unknown')`. -/
def eventOf : Option String → String
  | none => "unknown"
  | some e => e

/-- Lines 86–163: the `/github` POST handler.  `sig` and `event` are the two
consumed headers (a header carries a string when present).  A missing or
empty signature header aborts 400; a verification exception (possible for a
non-ASCII header value) escapes the handler before the `try:` block and
yields Flask's generic 500; a failed verification aborts 403; otherwise the
payload is processed. -/
def githubWebhook (cfg : Config) (net : TgPost → NetOutcome) (sig : Option String)
    (event : Option String) (rawBody : List Nat) : WResp :=
  match sig with
  | none => ⟨400, none, [], []⟩
  | some s =>
    if s = "" then ⟨400, none, [], []⟩
    else
      match verifyGithubSignature cfg.githubWebhookSecret rawBody (some s) with
      | .error _ => ⟨500, none, [], []⟩
      | .ok false => ⟨403, none, [], []⟩
      | .ok true => processPayload cfg net (eventOf event) (pyParseJson rawBody)

/-! ## Derived definitions used to state the claims -/

/-- Little-endian base-256 value of a byte list. -/
def fromBytes : List Nat → Nat
  | [] => 0
  | b :: bs => b + 256 * fromBytes bs

/-- The `m` little-endian base-256 digits of a number. -/
def toBytesN : Nat → Nat → List Nat
  | 0, _ => []
  | m + 1, n => n % 256 :: toBytesN m (n / 256)

/-- Python `v.get(k)` restricted to dicts (total version used in statements;
`.null` both for a missing key and for a non-dict receiver). -/
def jGet (v : JValue) (k : String) : JValue :=
  match v with
  | .obj kvs => (dlookup kvs k).getD .null
  | _ => .null

/-- The `repo` local of the push branch: `data.get('repository', {})`. -/
def repoOf (kvs : List (String × JValue)) : JValue :=
  (dlookup kvs "repository").getD (.obj [])

/-- The `commits` local of the push branch: `data.get('commits', [])`. -/
def commitsOf (kvs : List (String × JValue)) : JValue :=
  (dlookup kvs "commits").getD (.arr [])

/-- The branch string computed by line 122 when the `ref` field is absent or
a string. -/
def branchVal (kvs : List (String × JValue)) : String :=
  match dlookup kvs "ref" with
  | some (.str s) => (pySplitSlash s).getLastD ""
  | _ => ""

/-- The `ref` field is absent or a string (line 122 does not raise). -/
def refOk (kvs : List (String × JValue)) : Bool :=
  match dlookup kvs "ref" with
  | none => true
  | some (.str _) => true
  | _ => false

/-- The `pusher` field is absent or a dict (line 123 does not raise). -/
def pusherOk (kvs : List (String × JValue)) : Bool :=
  match dlookup kvs "pusher" with
  | none => true
  | some (.obj _) => true
  | _ => false

/-- The `repository` field is absent or a dict. -/
def repoOk (kvs : List (String × JValue)) : Bool :=
  match dlookup kvs "repository" with
  | none => true
  | some (.obj _) => true
  | _ => false

/-- The status string recorded for one commit: `sent`/`failed` after a
delivery attempt, `error` when formatting raised. -/
def entryStatus (cfg : Config) (net : TgPost → NetOutcome) (repo : JValue)
    (branch : String) (c : JValue) : String :=
  match formatMessage repo branch c with
  | .ok m => if (sendTelegramMessage cfg net m).1 then "sent" else "failed"
  | .error _ => "error"

/-- The result entry appended for one dict commit. -/
def commitEntry (cfg : Config) (net : TgPost → NetOutcome) (repo : JValue)
    (branch : String) (c : JValue) : JValue :=
  .obj [("commit_id", jGet c "id"), ("status", .str (entryStatus cfg net repo branch c))]

/-- The texts passed to the delivery client for one commit. -/
def commitCalls (repo : JValue) (branch : String) (c : JValue) : List String :=
  match formatMessage repo branch c with
  | .ok m => [m]
  | .error _ => []

/-- The network posts issued for one commit. -/
def commitPosts (cfg : Config) (net : TgPost → NetOutcome) (repo : JValue)
    (branch : String) (c : JValue) : List TgPost :=
  match formatMessage repo branch c with
  | .ok m => (sendTelegramMessage cfg net m).2
  | .error _ => []

/-! ## Helper lemmas: signature verification -/

/-- Hex characters are ASCII. -/
theorem hexChar_lt : ∀ n < 16, (hexChar n).toNat < 128 := by decide

/-- Hex digests are ASCII-only. -/
theorem asciiOnly_digestHex (d : List Nat) : asciiOnly (digestHex d) = true := by
  unfold asciiOnly digestHex
  rw [List.all_eq_true]
  intro c hc
  simp only [String.mk] at hc
  simp only [List.mem_flatMap] at hc
  obtain ⟨b, _, hc⟩ := hc
  simp only [List.mem_cons, List.mem_singleton] at hc
  rcases hc with rfl | rfl | h
  · simpa using hexChar_lt _ (Nat.mod_lt _ (by norm_num))
  · simpa using hexChar_lt _ (Nat.mod_lt _ (by norm_num))
  · cases h

/-- ASCII-ness distributes over append. -/
theorem asciiOnly_append (a b : String) :
    asciiOnly (a ++ b) = (asciiOnly a && asciiOnly b) := by
  simp [asciiOnly, String.data_append, List.all_append]

/-- A computed signature header is ASCII-only. -/
theorem asciiOnly_signHeader (sec : String) (body : List Nat) :
    asciiOnly (signHeader sec body) = true := by
  rw [signHeader, asciiOnly_append, asciiOnly_digestHex]
  decide

/-- A matching (body, header) pair verifies. -/
theorem verify_sign_eq_true (sec : String) (h : sec ≠ "") (body : List Nat) :
    verifyGithubSignature (some sec) body (some (signHeader sec body)) = .ok true := by
  simp [verifyGithubSignature, pyCompareDigest, h, asciiOnly_signHeader]

/-- Any present ASCII header other than the expected one is rejected. -/
theorem verify_header_ne (sec : String) (h : sec ≠ "") (body : List Nat) (sig : String)
    (ha : asciiOnly sig = true) (hne : sig ≠ signHeader sec body) :
    verifyGithubSignature (some sec) body (some sig) = .ok false := by
  simp [verifyGithubSignature, pyCompareDigest, h, asciiOnly_signHeader, ha]
  exact (Ne.symm hne)

/-- A computed signature header is never the empty string. -/
theorem signHeader_ne_empty (sec : String) (body : List Nat) :
    signHeader sec body ≠ "" := by
  intro h
  have := congrArg String.data h
  simp [signHeader, String.data_append] at this

/-! ## Helper lemmas: digest shape and byte-list encodings -/

/-- One SHA-256 round preserves the 8-word state shape. -/
theorem foldl_round256_length (l : List (Nat × Nat)) :
    ∀ st : List Nat, st.length = 8 →
      (l.foldl (fun st p => round256 st p.1 p.2) st).length = 8 := by
  induction l with
  | nil => intro st h; exact h
  | cons p l ih => intro st _; exact ih _ rfl

/-- Compression preserves the 8-word state shape. -/
theorem compressBlock_length (h : List Nat) (b : List Nat) (hl : h.length = 8) :
    (compressBlock h b).length = 8 := by
  unfold compressBlock
  rw [List.length_map, List.length_zip, foldl_round256_length _ _ hl, hl]
  simp

/-- Folding compression over any block list preserves the state shape. -/
theorem foldl_compress_length (bl : List (List Nat)) :
    ∀ st : List Nat, st.length = 8 → (bl.foldl compressBlock st).length = 8 := by
  induction bl with
  | nil => intro st h; exact h
  | cons b bl ih => intro st h; exact ih _ (compressBlock_length _ _ h)

/-- Word serialization produces 4 bytes. -/
theorem flatMap_wordBytes_length (l : List Nat) :
    (l.flatMap wordBytes).length = 4 * l.length := by
  induction l with
  | nil => rfl
  | cons w l ih => simp [wordBytes, ih]; ring

/-- A SHA-256 digest has 32 bytes. -/
theorem sha256_length (m : List Nat) : (sha256 m).length = 32 := by
  unfold sha256
  rw [flatMap_wordBytes_length, foldl_compress_length _ _ (by rfl)]

/-- Every byte of a SHA-256 digest is below 256. -/
theorem sha256_lt (m : List Nat) : ∀ b ∈ sha256 m, b < 256 := by
  intro b hb
  unfold sha256 at hb
  rw [List.mem_flatMap] at hb
  obtain ⟨w, _, hb⟩ := hb
  simp only [wordBytes, List.mem_cons, List.not_mem_nil, or_false] at hb
  rcases hb with rfl | rfl | rfl | rfl <;> exact Nat.mod_lt _ (by norm_num)

/-- An HMAC-SHA256 digest has 32 bytes. -/
theorem hmacSha256_length (key msg : List Nat) : (hmacSha256 key msg).length = 32 :=
  sha256_length _

/-- Every byte of an HMAC-SHA256 digest is below 256. -/
theorem hmacSha256_lt (key msg : List Nat) : ∀ b ∈ hmacSha256 key msg, b < 256 :=
  sha256_lt _

theorem toBytesN_length (m n : Nat) : (toBytesN m n).length = m := by
  induction m generalizing n with
  | zero => rfl
  | succ m ih => simp [toBytesN, ih]

theorem toBytesN_lt (m n : Nat) : ∀ b ∈ toBytesN m n, b < 256 := by
  induction m generalizing n with
  | zero => intro b hb; cases hb
  | succ m ih =>
    intro b hb
    rcases List.mem_cons.mp hb with rfl | hb
    · exact Nat.mod_lt _ (by norm_num)
    · exact ih _ _ hb

theorem fromBytes_toBytesN (m n : Nat) : fromBytes (toBytesN m n) = n % 256 ^ m := by
  induction m generalizing n with
  | zero => simp [toBytesN, fromBytes, Nat.mod_one]
  | succ m ih =>
    have hsplit : n % (256 * 256 ^ m) =
        256 * (n / 256 % 256 ^ m) + n % 256 := by
      have h1 : n % (256 * 256 ^ m) / 256 = n / 256 % 256 ^ m :=
        Nat.mod_mul_right_div_self n 256 (256 ^ m)
      have h2 : n % (256 * 256 ^ m) % 256 = n % 256 :=
        Nat.mod_mod_of_dvd n ⟨256 ^ m, rfl⟩
      have h3 := Nat.div_add_mod (n % (256 * 256 ^ m)) 256
      omega
    simp only [toBytesN, fromBytes, ih]
    rw [pow_succ']
    omega

/-- Bounded byte lists take values below `256 ^ length`. -/
theorem fromBytes_lt (l : List Nat) (h : ∀ b ∈ l, b < 256) :
    fromBytes l < 256 ^ l.length := by
  induction l with
  | nil => simp [fromBytes]
  | cons b bs ih =>
    have hb : b < 256 := h b (List.mem_cons_self b bs)
    have hbs : fromBytes bs < 256 ^ bs.length :=
      ih (fun x hx => h x (List.mem_cons_of_mem _ hx))
    have hm : 256 * (fromBytes bs + 1) ≤ 256 * 256 ^ bs.length :=
      Nat.mul_le_mul_left 256 hbs
    simp only [fromBytes, List.length_cons]
    rw [pow_succ']
    omega

/-- `fromBytes` is injective on equal-length bounded byte lists. -/
theorem fromBytes_inj (l1 : List Nat) :
    ∀ l2 : List Nat, (∀ b ∈ l1, b < 256) → (∀ b ∈ l2, b < 256) →
      l1.length = l2.length → fromBytes l1 = fromBytes l2 → l1 = l2 := by
  induction l1 with
  | nil =>
    intro l2 _ _ hl _
    cases l2 with
    | nil => rfl
    | cons b bs => simp at hl
  | cons a as ih =>
    intro l2 h1 h2 hl he
    cases l2 with
    | nil => simp at hl
    | cons b bs =>
      have ha : a < 256 := h1 a (List.mem_cons_self a as)
      have hb : b < 256 := h2 b (List.mem_cons_self b bs)
      simp only [fromBytes] at he
      have hab : a = b := by omega
      have htail : fromBytes as = fromBytes bs := by omega
      have := ih bs (fun x hx => h1 x (List.mem_cons_of_mem _ hx))
        (fun x hx => h2 x (List.mem_cons_of_mem _ hx))
        (by simpa using hl) htail
      rw [hab, this]

/-- Pigeonhole: for any key, two distinct 33-byte messages share an
HMAC-SHA256 digest (the digest space has only `256^32` elements). -/
theorem hmac_collision (key : List Nat) :
    ∃ b1 b2 : List Nat, b1 ≠ b2 ∧ b1.length = b2.length ∧
      (∀ x ∈ b1, x < 256) ∧ (∀ x ∈ b2, x < 256) ∧
      hmacSha256 key b1 = hmacSha256 key b2 := by
  have hbound : ∀ i : Fin (256 ^ 33),
      fromBytes (hmacSha256 key (toBytesN 33 i.val)) < 256 ^ 32 := by
    intro i
    have := fromBytes_lt (hmacSha256 key (toBytesN 33 i.val)) (hmacSha256_lt _ _)
    rwa [hmacSha256_length] at this
  let f : Fin (256 ^ 33) → Fin (256 ^ 32) :=
    fun i => ⟨fromBytes (hmacSha256 key (toBytesN 33 i.val)), hbound i⟩
  have hcard : Fintype.card (Fin (256 ^ 32)) < Fintype.card (Fin (256 ^ 33)) := by
    simp only [Fintype.card_fin]
    exact Nat.pow_lt_pow_right (by norm_num) (by norm_num)
  obtain ⟨i, j, hne, heq⟩ := Fintype.exists_ne_map_eq_of_card_lt f hcard
  refine ⟨toBytesN 33 i.val, toBytesN 33 j.val, ?_, ?_, toBytesN_lt _ _, toBytesN_lt _ _, ?_⟩
  · intro h
    apply hne
    have hvals := congrArg fromBytes h
    rw [fromBytes_toBytesN, fromBytes_toBytesN,
        Nat.mod_eq_of_lt i.isLt, Nat.mod_eq_of_lt j.isLt] at hvals
    exact Fin.ext hvals
  · rw [toBytesN_length, toBytesN_length]
  · have hfe : fromBytes (hmacSha256 key (toBytesN 33 i.val)) =
        fromBytes (hmacSha256 key (toBytesN 33 j.val)) := congrArg Fin.val heq
    exact fromBytes_inj _ _ (hmacSha256_lt _ _) (hmacSha256_lt _ _)
      (by rw [hmacSha256_length, hmacSha256_length]) hfe

/-- Hex characters are injective on nibbles. -/
theorem hexChar_inj : ∀ a < 16, ∀ b < 16, hexChar a = hexChar b → a = b := by decide

/-- Hex digests are injective on 32-byte (or any equal-length, bounded)
digests. -/
theorem digestHex_inj (d1 : List Nat) :
    ∀ d2 : List Nat, (∀ b ∈ d1, b < 256) → (∀ b ∈ d2, b < 256) →
      d1.length = d2.length → digestHex d1 = digestHex d2 → d1 = d2 := by
  induction d1 with
  | nil =>
    intro d2 _ _ hl _
    cases d2 with
    | nil => rfl
    | cons b bs => simp at hl
  | cons a as ih =>
    intro d2 h1 h2 hl he
    cases d2 with
    | nil => simp at hl
    | cons b bs =>
      have ha : a < 256 := h1 a (List.mem_cons_self a as)
      have hb : b < 256 := h2 b (List.mem_cons_self b bs)
      unfold digestHex at he
      have hdata := congrArg String.data he
      simp only [String.mk, List.flatMap_cons, List.cons_append, List.nil_append,
        List.cons.injEq] at hdata
      obtain ⟨hh1, hh2, hrest⟩ := hdata
      have e1 : a / 16 % 16 = b / 16 % 16 :=
        hexChar_inj _ (Nat.mod_lt _ (by norm_num)) _ (Nat.mod_lt _ (by norm_num)) hh1
      have e2 : a % 16 = b % 16 :=
        hexChar_inj _ (Nat.mod_lt _ (by norm_num)) _ (Nat.mod_lt _ (by norm_num)) hh2
      have hab : a = b := by omega
      have htl : digestHex as = digestHex bs := by
        unfold digestHex
        exact congrArg String.mk hrest
      have := ih bs (fun x hx => h1 x (List.mem_cons_of_mem _ hx))
        (fun x hx => h2 x (List.mem_cons_of_mem _ hx)) (by simpa using hl) htl
      rw [hab, this]

/-- Signature headers agree exactly when the HMAC digests agree. -/
theorem signHeader_inj (sec : String) (b1 b2 : List Nat)
    (h : signHeader sec b1 = signHeader sec b2) :
    hmacSha256 (pyEncode sec) b1 = hmacSha256 (pyEncode sec) b2 := by
  unfold signHeader at h
  have hdx : digestHex (hmacSha256 (pyEncode sec) b1) =
      digestHex (hmacSha256 (pyEncode sec) b2) := by
    have hd := congrArg String.data h
    simp only [String.data_append] at hd
    exact String.ext (List.append_cancel_left hd)
  exact digestHex_inj _ _ (hmacSha256_lt _ _) (hmacSha256_lt _ _)
    (by rw [hmacSha256_length, hmacSha256_length]) hdx

/-! ## Helper lemmas: the webhook handler -/

/-- After a successful verification the handler runs the payload stage. -/
theorem githubWebhook_verified (cfg : Config) (net : TgPost → NetOutcome)
    (s : String) (event : Option String) (raw : List Nat) (h1 : s ≠ "")
    (h2 : verifyGithubSignature cfg.githubWebhookSecret raw (some s) = .ok true) :
    githubWebhook cfg net (some s) event raw =
      processPayload cfg net (eventOf event) (pyParseJson raw) := by
  simp [githubWebhook, h1, h2]

/-- Single-argument `get` on a dict never raises. -/
theorem pyGet1_obj (kvs : List (String × JValue)) (k : String) :
    pyGet1 (.obj kvs) k = .ok (jGet (.obj kvs) k) := rfl

/-- Processing a dict commit always yields a result entry (no escaping
exception), together with its delivery-client calls and network posts. -/
theorem processCommit_obj (cfg : Config) (net : TgPost → NetOutcome) (repo : JValue)
    (branch : String) (kvs : List (String × JValue)) :
    processCommit cfg net repo branch (.obj kvs) =
      .ok (commitEntry cfg net repo branch (.obj kvs),
           commitCalls repo branch (.obj kvs),
           commitPosts cfg net repo branch (.obj kvs)) := by
  unfold processCommit commitEntry commitCalls commitPosts entryStatus
  cases hf : formatMessage repo branch (.obj kvs) with
  | ok m => simp [pyGet1, pyGetD, jGet]
  | error e => simp [pyGet1, pyGetD, jGet]

/-- The commit loop on a list of dict commits: one entry per commit, in
order, with the calls and posts concatenated in order. -/
theorem runCommits_obj (cfg : Config) (net : TgPost → NetOutcome) (repo : JValue)
    (branch : String) (cs : List JValue) (h : ∀ c ∈ cs, c.isObj = true) :
    runCommits cfg net repo branch cs =
      (.ok (cs.map (commitEntry cfg net repo branch)),
       cs.flatMap (commitCalls repo branch),
       cs.flatMap (commitPosts cfg net repo branch)) := by
  induction cs with
  | nil => rfl
  | cons c cs ih =>
    have hc : c.isObj = true := h c (List.mem_cons_self c cs)
    obtain ⟨kvs, rfl⟩ : ∃ kvs, c = .obj kvs := by
      cases c <;> simp [JValue.isObj] at hc ⊢
    rw [runCommits, processCommit_obj,
      ih (fun x hx => h x (List.mem_cons_of_mem _ hx))]
    simp [Except.map]

/-- Every recorded status is `sent`, `failed` or `error`. -/
theorem entryStatus_mem (cfg : Config) (net : TgPost → NetOutcome) (repo : JValue)
    (branch : String) (c : JValue) :
    entryStatus cfg net repo branch c ∈ (["sent", "failed", "error"] : List String) := by
  unfold entryStatus
  cases hf : formatMessage repo branch c with
  | ok m => simp only [hf]; split <;> simp
  | error e => simp only [hf]; simp

/-- Branch extraction succeeds when `ref` is absent or a string. -/
theorem branchOf_ok (kvs : List (String × JValue)) (h : refOk kvs = true) :
    branchOf (.obj kvs) = .ok (branchVal kvs) := by
  unfold branchOf branchVal
  unfold refOk at h
  cases hr : dlookup kvs "ref" with
  | none =>
    simp only [pyGetD, hr, Option.getD_none, Bind.bind, Except.bind, pure, Except.pure]
    rfl
  | some v =>
    cases v <;> rw [hr] at h <;>
      simp_all [pyGetD, Bind.bind, Except.bind, pure, Except.pure]

/-- Pusher extraction succeeds when `pusher` is absent or a dict. -/
theorem pusherOf_ok (kvs : List (String × JValue)) (h : pusherOk kvs = true) :
    ∃ v, pusherOf (.obj kvs) = .ok v := by
  unfold pusherOf
  unfold pusherOk at h
  cases hr : dlookup kvs "pusher" with
  | none =>
    exact ⟨.str "Unknown", by simp [pyGetD, hr, Bind.bind, Except.bind, dlookup]⟩
  | some v =>
    cases v <;> rw [hr] at h <;>
      simp_all [pyGetD, Bind.bind, Except.bind]

/-- Final repo-name lookup succeeds when `repository` is absent or a dict. -/
theorem repoName_ok (kvs : List (String × JValue)) (h : repoOk kvs = true) :
    pyGet1 (repoOf kvs) "name" = .ok (jGet (repoOf kvs) "name") := by
  unfold repoOf
  unfold repoOk at h
  cases hr : dlookup kvs "repository" with
  | none => simp [pyGet1, pyGetD, jGet]
  | some v =>
    cases v <;> rw [hr] at h <;> simp_all [pyGet1, pyGetD, jGet]

/-- The push branch only ever answers 200 or 500. -/
theorem pushHandler_code (cfg : Config) (net : TgPost → NetOutcome) (data : JValue) :
    (pushHandler cfg net data).code = 200 ∨ (pushHandler cfg net data).code = 500 := by
  unfold pushHandler err500
  repeat' split
  all_goals simp

/-- The payload stage only ever answers 200 or 500. -/
theorem processPayload_code (cfg : Config) (net : TgPost → NetOutcome)
    (eventType : String) (parsed : Option JValue) :
    (processPayload cfg net eventType parsed).code = 200 ∨
      (processPayload cfg net eventType parsed).code = 500 := by
  unfold processPayload err500
  repeat' split
  all_goals first
    | simp
    | exact pushHandler_code cfg net _

/-! ## Validation of the hash implementation against published test vectors -/

set_option maxRecDepth 40000 in
/-- FIPS 180-4 test vector: SHA-256 of `"abc"`. -/
theorem sha256_testVector :
    digestHex (sha256 [97, 98, 99]) =
      "ba7816bf8f01cfea414140de5dae2223b00361a396177a9cb410ff61f20015ad" := rfl

set_option maxRecDepth 40000 in
/-- RFC 4231-style test vector: HMAC-SHA256 with key `"key"` over the fox
sentence. -/
theorem hmacSha256_testVector :
    digestHex (hmacSha256 (pyEncode "key")
        (pyEncode "The quick brown fox jumps over the lazy dog")) =
      "f7bc83f430538424b13298e6aa6fb143ef4d59a14946175997479dbc2d1a3cd8" := rfl

/-! ## Claims -/

/-- A key that `hasKey` misses is absent from the association list. -/
theorem dlookup_eq_none (kvs : List (String × JValue)) (k : String)
    (h : kvs.any (fun p => p.1 == k) = false) : dlookup kvs k = none := by
  induction kvs with
  | nil => rfl
  | cons p rest ih =>
    simp only [List.any_cons, Bool.or_eq_false_iff] at h
    obtain ⟨h1, h2⟩ := h
    have : p.1 ≠ k := by simpa using h1
    simpa [dlookup, this] using ih h2

/-- C3: when the signature header is present (and non-empty) but verification
returns false, the handler responds 403 with no body, no call to the delivery
client, and no network post. -/
theorem c3_invalid_signature_rejected (cfg : Config) (net : TgPost → NetOutcome)
    (s : String) (event : Option String) (raw : List Nat) (h1 : s ≠ "")
    (h2 : verifyGithubSignature cfg.githubWebhookSecret raw (some s) = .ok false) :
    githubWebhook cfg net (some s) event raw = ⟨403, none, [], []⟩ := by
  simp [githubWebhook, h1, h2]

/-- Witness for C3 at a concrete request. -/
theorem c3_witness :
    ("sha256=bogus" : String) ≠ "" ∧
    verifyGithubSignature (some "") [] (some "sha256=bogus") = .ok false ∧
    githubWebhook ⟨none, none, some ""⟩ (fun _ => .success) (some "sha256=bogus")
        (some "push") [] = ⟨403, none, [], []⟩ :=
  ⟨by decide, rfl,
   c3_invalid_signature_rejected ⟨none, none, some ""⟩ (fun _ => .success)
     "sha256=bogus" (some "push") [] (by decide) rfl⟩

/-- C5 (code bug): the formatter interpolates markup-significant characters of
the commit message verbatim into the Markdown text — `*hello*` is passed
through raw, not neutralized. -/
theorem c5_formatter_no_escaping :
    formatMessage (.obj [("name", .str "repo")]) "main"
        (.obj [("message", .str "*hello*")]) =
      .ok ("📌 *New Commit to repo*\n━━━━━━━━━━━━━━━\n👤 *Author*: Unknown\n" ++
        "🔹 *Branch*: `main`\n💬 *Message*: _*hello*_\n━━━━━━━━━━━━━━━\n" ++
        "🔗 [View Commit ↗](#)") := rfl

/-- C7: the delivery client returns failure immediately (no network call) when
either credential is missing or falsy; otherwise it issues exactly one post
and returns success precisely when the endpoint succeeds, mapping every
failure outcome to `False` rather than an exception. -/
theorem c7_delivery_client (cfg : Config) (net : TgPost → NetOutcome) (text : String) :
    (¬ (truthyOptS cfg.telegramBotToken = true ∧ truthyOptS cfg.telegramChatId = true) →
      sendTelegramMessage cfg net text = (false, [])) ∧
    (truthyOptS cfg.telegramBotToken = true → truthyOptS cfg.telegramChatId = true →
      (sendTelegramMessage cfg net text).2 =
        [⟨cfg.telegramChatId.getD "", text, "Markdown", true⟩] ∧
      (net ⟨cfg.telegramChatId.getD "", text, "Markdown", true⟩ = .success →
        sendTelegramMessage cfg net text =
          (true, [⟨cfg.telegramChatId.getD "", text, "Markdown", true⟩])) ∧
      (∀ d, net ⟨cfg.telegramChatId.getD "", text, "Markdown", true⟩ = .failure d →
        sendTelegramMessage cfg net text =
          (false, [⟨cfg.telegramChatId.getD "", text, "Markdown", true⟩]))) := by
  constructor
  · intro h
    have hb : (truthyOptS cfg.telegramBotToken && truthyOptS cfg.telegramChatId) = false := by
      cases hx : truthyOptS cfg.telegramBotToken <;>
        cases hy : truthyOptS cfg.telegramChatId <;> simp_all
    simp [sendTelegramMessage, hb]
  · intro hx hy
    refine ⟨?_, ?_, ?_⟩
    · simp [sendTelegramMessage, hx, hy]
      cases net ⟨cfg.telegramChatId.getD "", text, "Markdown", true⟩ <;> simp
    · intro hn; simp [sendTelegramMessage, hx, hy, hn]
    · intro d hn; simp [sendTelegramMessage, hx, hy, hn]

/-- Witness for C7: missing credentials short-circuit; a failing endpoint is
reported as `False` with exactly one post issued. -/
theorem c7_witness :
    sendTelegramMessage ⟨none, some "c", none⟩ (fun _ => .success) "x" = (false, []) ∧
    sendTelegramMessage ⟨some "t", some "c", none⟩ (fun _ => .failure "boom") "x" =
      (false, [⟨"c", "x", "Markdown", true⟩]) :=
  ⟨(c7_delivery_client ⟨none, some "c", none⟩ (fun _ => .success) "x").1 (by decide),
   ((c7_delivery_client ⟨some "t", some "c", none⟩ (fun _ => .failure "boom") "x").2
     (by decide) (by decide)).2.2 "boom" rfl⟩

/-- C8 (amended): the verifier returns false without raising when the secret
is missing or empty (reject policy), and on any mismatching present ASCII
header; but it raises `TypeError` — rather than returning false — when a
secret is configured and the header is absent or non-ASCII. -/
theorem c8_verifier_totality (secret : Option String) (body : List Nat) :
    (truthyOptS secret = false →
      ∀ header, verifyGithubSignature secret body header = .ok false) ∧
    (∀ sec, secret = some sec → sec ≠ "" →
      verifyGithubSignature secret body none = .error .typeError ∧
      (∀ h, asciiOnly h = true → h ≠ signHeader sec body →
        verifyGithubSignature secret body (some h) = .ok false) ∧
      (∀ h, asciiOnly h = false →
        verifyGithubSignature secret body (some h) = .error .typeError)) := by
  constructor
  · intro ht header
    cases secret with
    | none => rfl
    | some s =>
      have hs : s = "" := by simpa [truthyOptS] using ht
      subst hs
      simp [verifyGithubSignature]
  · intro sec hsec hne
    subst hsec
    refine ⟨by simp [verifyGithubSignature, hne, pyCompareDigest], ?_, ?_⟩
    · intro h ha hfalse
      exact verify_header_ne sec hne body h ha hfalse
    · intro h ha
      simp [verifyGithubSignature, hne, pyCompareDigest, asciiOnly_signHeader, ha]

/-- Counterexample for C8 as stated: with a configured secret and a missing
header the verifier raises `TypeError` instead of returning false. -/
theorem c8_counterexample :
    verifyGithubSignature (some "k") [] none = .error .typeError ∧
    (Except.error PyErr.typeError : Except PyErr Bool) ≠ .ok false :=
  ⟨rfl, by simp⟩

/-- Witness for C8: the amended behavior at concrete inputs. -/
theorem c8_witness :
    truthyOptS (some "") = false ∧
    verifyGithubSignature (some "") [] (some "zzz") = .ok false ∧
    verifyGithubSignature (some "k") [1, 2] none = .error .typeError :=
  ⟨rfl, (c8_verifier_totality (some "") []).1 rfl (some "zzz"),
   ((c8_verifier_totality (some "k") [1, 2]).2 "k" rfl (by decide)).1⟩

/-- C10: a dict commit lacking an `id` field yields a result entry whose
`commit_id` is `null` (no placeholder default), while its status is still one
of `sent`/`failed`/`error`. -/
theorem c10_missing_id_null (cfg : Config) (net : TgPost → NetOutcome) (repo : JValue)
    (branch : String) (kvs : List (String × JValue))
    (h : hasKey (.obj kvs) "id" = false) :
    ∃ st, processCommit cfg net repo branch (.obj kvs) =
        .ok (.obj [("commit_id", .null), ("status", .str st)],
             commitCalls repo branch (.obj kvs),
             commitPosts cfg net repo branch (.obj kvs)) ∧
      st ∈ (["sent", "failed", "error"] : List String) := by
  have hid : jGet (.obj kvs) "id" = .null := by
    simp only [hasKey] at h
    simp [jGet, dlookup_eq_none kvs "id" h]
  refine ⟨entryStatus cfg net repo branch (.obj kvs), ?_, entryStatus_mem _ _ _ _ _⟩
  rw [processCommit_obj]
  simp [commitEntry, hid]

/-- Witness for C10 at a concrete commit without an `id`. -/
theorem c10_witness :
    hasKey (.obj [("message", .str "m")]) "id" = false ∧
    (∃ st, processCommit ⟨none, none, none⟩ (fun _ => .success) (.obj []) ""
        (.obj [("message", .str "m")]) =
        .ok (.obj [("commit_id", .null), ("status", .str st)],
             commitCalls (.obj []) "" (.obj [("message", .str "m")]),
             commitPosts ⟨none, none, none⟩ (fun _ => .success) (.obj []) ""
               (.obj [("message", .str "m")])) ∧
      st ∈ (["sent", "failed", "error"] : List String)) :=
  ⟨by decide,
   c10_missing_id_null ⟨none, none, none⟩ (fun _ => .success) (.obj []) ""
     [("message", .str "m")] (by decide)⟩

/-- C4 (amended): 400 exactly when the signature header is missing or empty;
500 when verification itself raises; 403 exactly on a failed verification;
and an unparseable body yields 500 (the parse error is swallowed by the
blanket `except` clause), not 400. -/
theorem c4_status_codes (cfg : Config) (net : TgPost → NetOutcome)
    (sig : Option String) (event : Option String) (raw : List Nat) :
    (truthyOptS sig = false → githubWebhook cfg net sig event raw = ⟨400, none, [], []⟩) ∧
    (∀ s, sig = some s → s ≠ "" →
      (∀ e, verifyGithubSignature cfg.githubWebhookSecret raw (some s) = .error e →
        githubWebhook cfg net sig event raw = ⟨500, none, [], []⟩) ∧
      (verifyGithubSignature cfg.githubWebhookSecret raw (some s) = .ok false →
        githubWebhook cfg net sig event raw = ⟨403, none, [], []⟩) ∧
      (verifyGithubSignature cfg.githubWebhookSecret raw (some s) = .ok true →
        pyParseJson raw = none →
        githubWebhook cfg net sig event raw = ⟨500, none, [], []⟩)) ∧
    ((githubWebhook cfg net sig event raw).code = 403 →
      ∃ s, sig = some s ∧ s ≠ "" ∧
        verifyGithubSignature cfg.githubWebhookSecret raw (some s) = .ok false) := by
  refine ⟨?_, ?_, ?_⟩
  · intro h
    cases sig with
    | none => rfl
    | some s =>
      have hs : s = "" := by simpa [truthyOptS] using h
      subst hs
      simp [githubWebhook]
  · intro s hsig hne
    subst hsig
    refine ⟨?_, ?_, ?_⟩
    · intro e he; simp [githubWebhook, hne, he]
    · intro hv; simp [githubWebhook, hne, hv]
    · intro hv hp
      rw [githubWebhook_verified cfg net s event raw hne hv, hp]
      rfl
  · intro hcode
    cases sig with
    | none => simp [githubWebhook] at hcode
    | some s =>
      by_cases hne : s = ""
      · subst hne; simp [githubWebhook] at hcode
      · cases hv : verifyGithubSignature cfg.githubWebhookSecret raw (some s) with
        | error e => simp [githubWebhook, hne, hv] at hcode
        | ok b =>
          cases b with
          | false => exact ⟨s, rfl, hne, hv⟩
          | true =>
            rw [githubWebhook_verified cfg net s event raw hne hv] at hcode
            rcases processPayload_code cfg net (eventOf event) (pyParseJson raw) with h | h <;>
              omega

set_option maxRecDepth 40000 in
/-- Counterexample for C4 as stated: a request whose body `"{"` is
unparseable, carrying a valid signature, is answered 500 — not 400. -/
theorem c4_counterexample :
    (githubWebhook ⟨none, none, some "k"⟩ (fun _ => .success)
        (some (signHeader "k" (pyEncode "\x7b"))) (some "push") (pyEncode "\x7b")).code
      = 500 ∧
    (githubWebhook ⟨none, none, some "k"⟩ (fun _ => .success)
        (some (signHeader "k" (pyEncode "\x7b"))) (some "push") (pyEncode "\x7b")).code
      ≠ 400 := by
  rw [githubWebhook_verified _ _ _ _ _ (signHeader_ne_empty "k" (pyEncode "\x7b"))
    (verify_sign_eq_true "k" (by decide) (pyEncode "\x7b"))]
  exact ⟨rfl, by decide⟩

/-- Witness for C4: concrete instances of each amended status rule. -/
theorem c4_witness :
    truthyOptS (none : Option String) = false ∧
    githubWebhook ⟨none, none, some "k"⟩ (fun _ => .success) none (some "push") [] =
      ⟨400, none, [], []⟩ ∧
    verifyGithubSignature (some "") [] (some "sha256=bogus") = .ok false ∧
    githubWebhook ⟨none, none, some ""⟩ (fun _ => .success) (some "sha256=bogus")
        (some "push") [] = ⟨403, none, [], []⟩ :=
  ⟨rfl,
   (c4_status_codes ⟨none, none, some "k"⟩ (fun _ => .success) none (some "push") []).1 rfl,
   rfl,
   ((c4_status_codes ⟨none, none, some ""⟩ (fun _ => .success) (some "sha256=bogus")
       (some "push") []).2.1 "sha256=bogus" rfl (by decide)).2.1 rfl⟩

/-- C6 (amended): for a verified request whose payload parses to a non-empty
JSON object, a `ping` event is acknowledged with `pong` (HTTP 200, no
delivery), and a `push` payload `{"commits": []}` is ignored with reason
`"No commits"` — capitalized, unlike the spec's `"no commits"` (HTTP 200, no
delivery). -/
theorem c6_ping_and_empty_commits :
    (∀ (cfg : Config) (net : TgPost → NetOutcome) (s : String) (event : Option String)
       (raw : List Nat) (kvs : List (String × JValue)), s ≠ "" →
      verifyGithubSignature cfg.githubWebhookSecret raw (some s) = .ok true →
      eventOf event = "ping" → pyParseJson raw = some (.obj kvs) → kvs ≠ [] →
      githubWebhook cfg net (some s) event raw =
        ⟨200, some (.obj [("status", .str "pong"),
           ("zen", (dlookup kvs "zen").getD (.str ""))]), [], []⟩) ∧
    (∀ (cfg : Config) (net : TgPost → NetOutcome) (s : String) (event : Option String)
       (raw : List Nat), s ≠ "" →
      verifyGithubSignature cfg.githubWebhookSecret raw (some s) = .ok true →
      eventOf event = "push" →
      pyParseJson raw = some (.obj [("commits", .arr [])]) →
      githubWebhook cfg net (some s) event raw =
        ⟨200, some (.obj [("status", .str "ignored"), ("reason", .str "No commits")]),
          [], []⟩) := by
  constructor
  · intro cfg net s event raw kvs h1 h2 h3 h4 h5
    rw [githubWebhook_verified cfg net s event raw h1 h2, h3, h4]
    have hk : kvs.isEmpty = false := by
      cases kvs with
      | nil => exact absurd rfl h5
      | cons a l => rfl
    simp [processPayload, pyTruthy, hk, pyGetD]
  · intro cfg net s event raw h1 h2 h3 h4
    rw [githubWebhook_verified cfg net s event raw h1 h2, h3, h4]
    rfl

set_option maxRecDepth 100000 in
/-- Counterexample for C6 as stated: a verified `ping` whose payload is the
JSON array `[1]` is answered 500, not acknowledged with 200; and the ignored
reason for an empty commit list is `"No commits"`, not `"no commits"`. -/
theorem c6_counterexample :
    (githubWebhook ⟨none, none, some "k"⟩ (fun _ => .success)
        (some (signHeader "k" (pyEncode "[1]"))) (some "ping") (pyEncode "[1]")).code
      = 500 ∧
    (500 : Nat) ≠ 200 ∧
    (githubWebhook ⟨none, none, some "k"⟩ (fun _ => .success)
        (some (signHeader "k" (pyEncode "\x7b\"commits\": []\x7d"))) (some "push")
        (pyEncode "\x7b\"commits\": []\x7d")).body =
      some (.obj [("status", .str "ignored"), ("reason", .str "No commits")]) ∧
    ("No commits" : String) ≠ "no commits" := by
  refine ⟨?_, by decide, ?_, by decide⟩
  · rw [githubWebhook_verified _ _ _ _ _ (signHeader_ne_empty "k" (pyEncode "[1]"))
      (verify_sign_eq_true "k" (by decide) (pyEncode "[1]"))]
    rfl
  · rw [githubWebhook_verified _ _ _ _ _
      (signHeader_ne_empty "k" (pyEncode "\x7b\"commits\": []\x7d"))
      (verify_sign_eq_true "k" (by decide) (pyEncode "\x7b\"commits\": []\x7d"))]
    rfl

set_option maxRecDepth 100000 in
/-- Witness for C6 at concrete verified requests. -/
theorem c6_witness :
    pyParseJson (pyEncode "\x7b\"zen\": \"calm\"\x7d") =
      some (.obj [("zen", .str "calm")]) ∧
    githubWebhook ⟨none, none, some "k"⟩ (fun _ => .success)
        (some (signHeader "k" (pyEncode "\x7b\"zen\": \"calm\"\x7d"))) (some "ping")
        (pyEncode "\x7b\"zen\": \"calm\"\x7d") =
      ⟨200, some (.obj [("status", .str "pong"), ("zen", .str "calm")]), [], []⟩ ∧
    githubWebhook ⟨none, none, some "k"⟩ (fun _ => .success)
        (some (signHeader "k" (pyEncode "\x7b\"commits\": []\x7d"))) (some "push")
        (pyEncode "\x7b\"commits\": []\x7d") =
      ⟨200, some (.obj [("status", .str "ignored"), ("reason", .str "No commits")]),
        [], []⟩ :=
  ⟨rfl,
   (c6_ping_and_empty_commits.1 ⟨none, none, some "k"⟩ (fun _ => .success) _ (some "ping")
     _ [("zen", .str "calm")] (signHeader_ne_empty "k" _)
     (verify_sign_eq_true "k" (by decide) _) rfl rfl (List.cons_ne_nil _ _)),
   (c6_ping_and_empty_commits.2 ⟨none, none, some "k"⟩ (fun _ => .success) _ (some "push")
     _ (signHeader_ne_empty "k" _) (verify_sign_eq_true "k" (by decide) _) rfl rfl)⟩

/-- Payload stage dispatches a non-empty object under event `push` to the
push branch. -/
theorem processPayload_push (cfg : Config) (net : TgPost → NetOutcome)
    (kvs : List (String × JValue)) (h5 : kvs ≠ []) :
    processPayload cfg net "push" (some (.obj kvs)) = pushHandler cfg net (.obj kvs) := by
  have hk : kvs.isEmpty = false := by
    cases kvs with
    | nil => exact absurd rfl h5
    | cons a l => rfl
  simp [processPayload, pyTruthy, hk]

/-- The push branch under well-formed fields: one entry per commit in payload
order, with the accumulated delivery-client calls and network posts. -/
theorem pushHandler_ok (cfg : Config) (net : TgPost → NetOutcome)
    (kvs : List (String × JValue)) (cs : List JValue)
    (h6 : dlookup kvs "commits" = some (.arr cs)) (h7 : cs ≠ [])
    (h8 : ∀ c ∈ cs, c.isObj = true) (h9 : refOk kvs = true)
    (h10 : pusherOk kvs = true) (h11 : repoOk kvs = true) :
    pushHandler cfg net (.obj kvs) =
      ⟨200,
       some (.obj [("status", .str "processed"),
                   ("repo", jGet (repoOf kvs) "name"),
                   ("branch", .str (branchVal kvs)),
                   ("results", .arr (cs.map (commitEntry cfg net (repoOf kvs) (branchVal kvs))))]),
       cs.flatMap (commitCalls (repoOf kvs) (branchVal kvs)),
       cs.flatMap (commitPosts cfg net (repoOf kvs) (branchVal kvs))⟩ := by
  obtain ⟨pv, hpv⟩ := pusherOf_ok kvs h10
  have hcs : cs.isEmpty = false := by
    cases cs with
    | nil => exact absurd rfl h7
    | cons a l => rfl
  unfold pushHandler
  simp only [pyGetD, h6, Option.getD_some, branchOf_ok kvs h9, hpv, pyTruthy, hcs,
    Bool.not_false, pyIter]
  rw [show ((dlookup kvs "repository").getD (JValue.obj [])) = repoOf kvs from rfl]
  rw [runCommits_obj cfg net (repoOf kvs) (branchVal kvs) cs h8]
  rw [repoName_ok kvs h11]
  rfl

/-- C2 (amended): a verified push whose commits are all JSON objects (and
whose `ref`/`pusher`/`repository` fields, when present, are well-typed) is
answered 200 with exactly one result entry per commit, in payload order; a
failed or erroneous commit does not halt the loop; every status is `sent`,
`failed` or `error`; and the texts handed to the delivery client are exactly
the successfully formatted messages, in payload order. -/
theorem c2_per_commit_results (cfg : Config) (net : TgPost → NetOutcome) (s : String)
    (event : Option String) (raw : List Nat) (kvs : List (String × JValue))
    (cs : List JValue)
    (h1 : s ≠ "")
    (h2 : verifyGithubSignature cfg.githubWebhookSecret raw (some s) = .ok true)
    (h3 : eventOf event = "push")
    (h4 : pyParseJson raw = some (.obj kvs))
    (h5 : kvs ≠ [])
    (h6 : dlookup kvs "commits" = some (.arr cs))
    (h7 : cs ≠ [])
    (h8 : ∀ c ∈ cs, c.isObj = true)
    (h9 : refOk kvs = true)
    (h10 : pusherOk kvs = true)
    (h11 : repoOk kvs = true) :
    githubWebhook cfg net (some s) event raw =
      ⟨200,
       some (.obj [("status", .str "processed"),
                   ("repo", jGet (repoOf kvs) "name"),
                   ("branch", .str (branchVal kvs)),
                   ("results", .arr (cs.map (commitEntry cfg net (repoOf kvs) (branchVal kvs))))]),
       cs.flatMap (commitCalls (repoOf kvs) (branchVal kvs)),
       cs.flatMap (commitPosts cfg net (repoOf kvs) (branchVal kvs))⟩ ∧
    (cs.map (commitEntry cfg net (repoOf kvs) (branchVal kvs))).length = cs.length ∧
    (∀ c ∈ cs, entryStatus cfg net (repoOf kvs) (branchVal kvs) c ∈
      (["sent", "failed", "error"] : List String)) := by
  refine ⟨?_, List.length_map _ _, fun c _ => entryStatus_mem _ _ _ _ _⟩
  rw [githubWebhook_verified cfg net s event raw h1 h2, h3, h4,
    processPayload_push cfg net kvs h5,
    pushHandler_ok cfg net kvs cs h6 h7 h8 h9 h10 h11]

set_option maxRecDepth 100000 in
/-- Counterexample for C2 as stated: a verified push with commits `[5, {}]`
is answered 500 — the non-dict commit raises inside the `except` clause
itself, aborting the loop, so the second commit is never attempted and no
results list is produced; likewise all-dict commits under a non-dict
`repository` field produce 500 instead of a per-commit result list. -/
theorem c2_counterexample :
    githubWebhook ⟨some "t", some "c", some "k"⟩ (fun _ => .success)
        (some (signHeader "k" (pyEncode "\x7b\"commits\": [5, \x7b\x7d]\x7d")))
        (some "push") (pyEncode "\x7b\"commits\": [5, \x7b\x7d]\x7d") =
      ⟨500, none, [], []⟩ ∧
    (500 : Nat) ≠ 200 ∧
    githubWebhook ⟨some "t", some "c", some "k"⟩ (fun _ => .success)
        (some (signHeader "k" (pyEncode "\x7b\"commits\": [\x7b\x7d], \"repository\": \"x\"\x7d")))
        (some "push") (pyEncode "\x7b\"commits\": [\x7b\x7d], \"repository\": \"x\"\x7d") =
      ⟨500, none, [], []⟩ := by
  refine ⟨?_, by decide, ?_⟩
  · rw [githubWebhook_verified _ _ _ _ _
      (signHeader_ne_empty "k" (pyEncode "\x7b\"commits\": [5, \x7b\x7d]\x7d"))
      (verify_sign_eq_true "k" (by decide) (pyEncode "\x7b\"commits\": [5, \x7b\x7d]\x7d"))]
    rfl
  · rw [githubWebhook_verified _ _ _ _ _
      (signHeader_ne_empty "k" (pyEncode "\x7b\"commits\": [\x7b\x7d], \"repository\": \"x\"\x7d"))
      (verify_sign_eq_true "k" (by decide)
        (pyEncode "\x7b\"commits\": [\x7b\x7d], \"repository\": \"x\"\x7d"))]
    rfl

set_option maxRecDepth 100000 in
/-- Witness for C2: a verified push with two empty-object commits and an
unreachable endpoint — both commits attempted, both recorded `failed`. -/
theorem c2_witness :
    (∀ c ∈ [JValue.obj [], JValue.obj []], c.isObj = true) ∧
    githubWebhook ⟨none, none, some "k"⟩ (fun _ => .failure "err")
        (some (signHeader "k" (pyEncode "\x7b\"commits\": [\x7b\x7d, \x7b\x7d]\x7d")))
        (some "push") (pyEncode "\x7b\"commits\": [\x7b\x7d, \x7b\x7d]\x7d") =
      ⟨200,
       some (.obj [("status", .str "processed"), ("repo", .null), ("branch", .str ""),
          ("results", .arr [.obj [("commit_id", .null), ("status", .str "failed")],
                            .obj [("commit_id", .null), ("status", .str "failed")]])]),
       ["📌 *New Commit to Unnamed Repository*\n━━━━━━━━━━━━━━━\n👤 *Author*: Unknown\n" ++
          "🔹 *Branch*: ``\n💬 *Message*: _No message_\n━━━━━━━━━━━━━━━\n" ++
          "🔗 [View Commit ↗](#)",
        "📌 *New Commit to Unnamed Repository*\n━━━━━━━━━━━━━━━\n👤 *Author*: Unknown\n" ++
          "🔹 *Branch*: ``\n💬 *Message*: _No message_\n━━━━━━━━━━━━━━━\n" ++
          "🔗 [View Commit ↗](#)"],
       []⟩ :=
  ⟨by decide,
   (c2_per_commit_results ⟨none, none, some "k"⟩ (fun _ => .failure "err")
     (signHeader "k" (pyEncode "\x7b\"commits\": [\x7b\x7d, \x7b\x7d]\x7d")) (some "push")
     (pyEncode "\x7b\"commits\": [\x7b\x7d, \x7b\x7d]\x7d")
     [("commits", .arr [.obj [], .obj []])] [.obj [], .obj []]
     (signHeader_ne_empty "k" _) (verify_sign_eq_true "k" (by decide) _) rfl rfl
     (List.cons_ne_nil _ _) rfl (List.cons_ne_nil _ _) (by decide) rfl rfl rfl).1⟩

/-- C9: for a verified push the branch reported (and interpolated into the
message) is the last `/`-delimited segment of the `ref` string — or the empty
string when `ref` is absent — and a commit's missing `author`, `message` and
`url` fields fall back to `Unknown`, `No message` and `#` in the formatted
message, while the missing `id` falls back to `null` in the results. -/
theorem c9_branch_and_defaults :
    (∀ (cfg : Config) (net : TgPost → NetOutcome) (s : String) (event : Option String)
       (raw : List Nat) (rn rs : String), s ≠ "" →
      verifyGithubSignature cfg.githubWebhookSecret raw (some s) = .ok true →
      eventOf event = "push" →
      pyParseJson raw = some (.obj [("repository", .obj [("name", .str rn)]),
        ("ref", .str rs), ("commits", .arr [.obj []])]) →
      ∃ st posts,
        githubWebhook cfg net (some s) event raw =
          ⟨200,
           some (.obj [("status", .str "processed"), ("repo", .str rn),
              ("branch", .str ((pySplitSlash rs).getLastD "")),
              ("results", .arr [.obj [("commit_id", .null), ("status", .str st)]])]),
           ["📌 *New Commit to " ++ rn ++ "*\n" ++ sepLine ++ "\n👤 *Author*: " ++
              "Unknown" ++ "\n🔹 *Branch*: `" ++ (pySplitSlash rs).getLastD "" ++
              "`\n💬 *Message*: _" ++ "No message" ++ "_\n" ++ sepLine ++
              "\n🔗 [View Commit ↗](" ++ "#" ++ ")"],
           posts⟩ ∧ st ∈ (["sent", "failed", "error"] : List String)) ∧
    (∀ (cfg : Config) (net : TgPost → NetOutcome) (s : String) (event : Option String)
       (raw : List Nat) (rn : String), s ≠ "" →
      verifyGithubSignature cfg.githubWebhookSecret raw (some s) = .ok true →
      eventOf event = "push" →
      pyParseJson raw = some (.obj [("repository", .obj [("name", .str rn)]),
        ("commits", .arr [.obj []])]) →
      ∃ st posts,
        githubWebhook cfg net (some s) event raw =
          ⟨200,
           some (.obj [("status", .str "processed"), ("repo", .str rn),
              ("branch", .str ""),
              ("results", .arr [.obj [("commit_id", .null), ("status", .str st)]])]),
           ["📌 *New Commit to " ++ rn ++ "*\n" ++ sepLine ++ "\n👤 *Author*: " ++
              "Unknown" ++ "\n🔹 *Branch*: `" ++ "" ++
              "`\n💬 *Message*: _" ++ "No message" ++ "_\n" ++ sepLine ++
              "\n🔗 [View Commit ↗](" ++ "#" ++ ")"],
           posts⟩ ∧ st ∈ (["sent", "failed", "error"] : List String)) := by
  constructor
  · intro cfg net s event raw rn rs h1 h2 h3 h4
    rw [githubWebhook_verified cfg net s event raw h1 h2, h3, h4,
      processPayload_push cfg net _ (List.cons_ne_nil _ _),
      pushHandler_ok cfg net
        [("repository", .obj [("name", .str rn)]), ("ref", .str rs),
         ("commits", .arr [.obj []])]
        [.obj []] rfl (List.cons_ne_nil _ _) (by decide) rfl rfl rfl]
    exact ⟨_, _, rfl, entryStatus_mem _ _ _ _ _⟩
  · intro cfg net s event raw rn h1 h2 h3 h4
    rw [githubWebhook_verified cfg net s event raw h1 h2, h3, h4,
      processPayload_push cfg net _ (List.cons_ne_nil _ _),
      pushHandler_ok cfg net
        [("repository", .obj [("name", .str rn)]), ("commits", .arr [.obj []])]
        [.obj []] rfl (List.cons_ne_nil _ _) (by decide) rfl rfl rfl]
    exact ⟨_, _, rfl, entryStatus_mem _ _ _ _ _⟩

set_option maxRecDepth 100000 in
/-- Witness for C9 at a concrete verified push with `ref` `refs/heads/dev`
and a field-less commit. -/
theorem c9_witness :
    pyParseJson (pyEncode
        "\x7b\"repository\": \x7b\"name\": \"r\"\x7d, \"ref\": \"refs/heads/dev\", \"commits\": [\x7b\x7d]\x7d") =
      some (.obj [("repository", .obj [("name", .str "r")]), ("ref", .str "refs/heads/dev"),
        ("commits", .arr [.obj []])]) ∧
    (∃ st posts,
      githubWebhook ⟨none, none, some "k"⟩ (fun _ => .failure "err")
          (some (signHeader "k" (pyEncode
            "\x7b\"repository\": \x7b\"name\": \"r\"\x7d, \"ref\": \"refs/heads/dev\", \"commits\": [\x7b\x7d]\x7d")))
          (some "push")
          (pyEncode
            "\x7b\"repository\": \x7b\"name\": \"r\"\x7d, \"ref\": \"refs/heads/dev\", \"commits\": [\x7b\x7d]\x7d") =
        ⟨200,
         some (.obj [("status", .str "processed"), ("repo", .str "r"),
            ("branch", .str "dev"),
            ("results", .arr [.obj [("commit_id", .null), ("status", .str st)]])]),
         ["📌 *New Commit to r*\n━━━━━━━━━━━━━━━\n👤 *Author*: Unknown\n" ++
            "🔹 *Branch*: `dev`\n💬 *Message*: _No message_\n━━━━━━━━━━━━━━━\n" ++
            "🔗 [View Commit ↗](#)"],
         posts⟩ ∧ st ∈ (["sent", "failed", "error"] : List String)) :=
  ⟨rfl,
   c9_branch_and_defaults.1 ⟨none, none, some "k"⟩ (fun _ => .failure "err")
     (signHeader "k" (pyEncode
       "\x7b\"repository\": \x7b\"name\": \"r\"\x7d, \"ref\": \"refs/heads/dev\", \"commits\": [\x7b\x7d]\x7d"))
     (some "push")
     (pyEncode
       "\x7b\"repository\": \x7b\"name\": \"r\"\x7d, \"ref\": \"refs/heads/dev\", \"commits\": [\x7b\x7d]\x7d")
     "r" "refs/heads/dev" (signHeader_ne_empty "k" _)
     (verify_sign_eq_true "k" (by decide) _) rfl rfl⟩

/-- C1 (amended): with a configured (non-empty) secret, a matching
(body, header) pair always verifies; any other ASCII header is rejected; and
a different body presented against the original body's header is rejected
precisely when its HMAC-SHA256 digest differs — by counting, bodies with
colliding digests exist (see the counterexample), though none are feasibly
computable. -/
theorem c1_signature_verification (sec : String) (hsec : sec ≠ "") (body : List Nat) :
    verifyGithubSignature (some sec) body (some (signHeader sec body)) = .ok true ∧
    (∀ sig : String, asciiOnly sig = true → sig ≠ signHeader sec body →
      verifyGithubSignature (some sec) body (some sig) = .ok false) ∧
    (∀ body' : List Nat,
      hmacSha256 (pyEncode sec) body' ≠ hmacSha256 (pyEncode sec) body →
      verifyGithubSignature (some sec) body' (some (signHeader sec body)) = .ok false) := by
  refine ⟨verify_sign_eq_true sec hsec body,
    fun sig ha hne => verify_header_ne sec hsec body sig ha hne, ?_⟩
  intro body' hne
  apply verify_header_ne sec hsec body' (signHeader sec body) (asciiOnly_signHeader sec body)
  intro h
  exact hne (signHeader_inj sec body body' h).symm

/-- Counterexample for C1 as stated: by pigeonhole over the 33-byte messages
there exist two distinct equal-length bodies with the same HMAC-SHA256 under
secret `"k"`, so some body differing from the matching pair's body still
verifies against the pair's signature header. -/
theorem c1_counterexample :
    ¬ (∀ (secret : String) (body body' : List Nat), secret ≠ "" →
        body'.length = body.length → body' ≠ body →
        verifyGithubSignature (some secret) body' (some (signHeader secret body)) =
          .ok false) := by
  intro hclaim
  obtain ⟨b1, b2, hne, hlen, _, _, hcoll⟩ := hmac_collision (pyEncode "k")
  have hok : verifyGithubSignature (some "k") b2 (some (signHeader "k" b1)) = .ok true := by
    have hhdr : signHeader "k" b1 = signHeader "k" b2 := by
      unfold signHeader
      rw [hcoll]
    rw [hhdr]
    exact verify_sign_eq_true "k" (by decide) b2
  have hfalse := hclaim "k" b1 b2 (by decide) hlen.symm (Ne.symm hne)
  rw [hok] at hfalse
  simp at hfalse

/-- Witness for C1 at the concrete secret `"k"` and body `[1, 2, 3]`. -/
theorem c1_witness :
    ("k" : String) ≠ "" ∧
    (verifyGithubSignature (some "k") [1, 2, 3] (some (signHeader "k" [1, 2, 3])) =
        .ok true ∧
     (∀ sig : String, asciiOnly sig = true → sig ≠ signHeader "k" [1, 2, 3] →
       verifyGithubSignature (some "k") [1, 2, 3] (some sig) = .ok false) ∧
     (∀ body' : List Nat,
       hmacSha256 (pyEncode "k") body' ≠ hmacSha256 (pyEncode "k") [1, 2, 3] →
       verifyGithubSignature (some "k") body' (some (signHeader "k" [1, 2, 3])) =
         .ok false)) :=
  ⟨by decide, c1_signature_verification "k" (by decide) [1, 2, 3]⟩
